import Mathlib

/-!
Verification development for the OpenSky MCP server (`src/main.py`).

The Python source is shallowly embedded: JSON values become the inductive
`JVal`, numbers are modelled as exact rationals `ℚ`, fallible code (Python
exceptions such as `IndexError`) returns `Option`, and each network
interaction is made explicit by passing the outcome of the (single) HTTP
request as an argument together with a count of upstream calls issued.
-/

namespace OpenskyMCP

/-- A JSON value as it occurs in OpenSky `/states/all` payloads. -/
inductive JVal where
  | null
  | num (q : ℚ)
  | str (s : String)
  | bool (b : Bool)
deriving DecidableEq, Repr

/-- Reading a JSON field that the schema types as `number | null`
into Python `Optional[float]`. -/
def JVal.toOptNum : JVal → Option ℚ
  | .num q => some q
  | _ => none

/-- Reading a JSON field that the schema types as `string | null`;
Python `s[1] or ""` maps `null` (and anything falsy) to `""`. -/
def JVal.strOrEmpty : JVal → String
  | .str s => s
  | _ => ""

/-- Python `str.strip()` on a callsign: drop leading and trailing
whitespace. Implemented over the character list so that it reduces
inside the kernel. -/
def pyStrip (s : String) : String :=
  ⟨((s.data.dropWhile Char.isWhitespace).reverse.dropWhile Char.isWhitespace).reverse⟩

/-- The payload of `/states/all`, holding `time` and `states` where
`states` is an array of arrays or null.
`states = none` models both JSON `null` and an absent key
(`raw.get("states")` yields `None` in either case). -/
structure RawPayload where
  states : Option (List (List JVal))
deriving DecidableEq, Repr

/-- A normalized flight record, as built by `_normalize_states`.
Fields that the code merely passes through keep their JSON value. -/
structure FlightState where
  icao24 : JVal
  callsign : String
  origin_country : JVal
  lat : JVal
  lon : JVal
  alt_ft : Option ℚ
  speed_kmh : Option ℚ
  track_deg : JVal
  on_ground : JVal
  last_contact : JVal
deriving DecidableEq, Repr

/-- `_to_kmh` from `main.py`: `None if v_ms is None else v_ms * 3.6`. -/
def _to_kmh (v_ms : Option ℚ) : Option ℚ :=
  match v_ms with
  | none => none
  | some v => some (v * 3.6)

/-- `_to_ft` from `main.py`: `None if alt_m is None else alt_m * 3.28084`. -/
def _to_ft (alt_m : Option ℚ) : Option ℚ :=
  match alt_m with
  | none => none
  | some v => some (v * 3.28084)

/-- One iteration of the loop body of `_normalize_states`.
The outer `Option` models a Python `IndexError` (`none` = the loop raised);
the inner `Option` is the drop rule (`none` = record skipped by `continue`).
Indices are read in the order the source reads them, before the
`lat is None or lon is None` check. -/
def normOne (s : List JVal) : Option (Option FlightState) := do
  let icao24 ← s.get? 0
  let cs_raw ← s.get? 1
  let origin_country ← s.get? 2
  let last_contact ← s.get? 4
  let lon ← s.get? 5
  let lat ← s.get? 6
  let baro_alt_m ← s.get? 7
  let on_ground ← s.get? 8
  let velocity_ms ← s.get? 9
  let true_track ← s.get? 10
  let cs0 := pyStrip cs_raw.strOrEmpty
  let callsign := if cs0 = "" then "UNKNOWN" else cs0
  if lat = JVal.null ∨ lon = JVal.null then
    return none
  return some {
    icao24 := icao24
    callsign := callsign
    origin_country := origin_country
    lat := lat
    lon := lon
    alt_ft := _to_ft baro_alt_m.toOptNum
    speed_kmh := _to_kmh velocity_ms.toOptNum
    track_deg := true_track
    on_ground := on_ground
    last_contact := last_contact }

/-- The `for s in states` loop of `_normalize_states`: builds the output
list in input order; a `none` from `normOne` (an `IndexError`) aborts the
whole call, as the uncaught exception does in Python. -/
def normLoop : List (List JVal) → Option (List FlightState)
  | [] => some []
  | s :: rest =>
    match normOne s with
    | none => none
    | some none => normLoop rest
    | some (some fs) => (normLoop rest).map (fs :: ·)

/-- `_normalize_states` from `main.py`; `raw.get("states") or []`
defaults a `null`/absent `states` to the empty list. -/
def _normalize_states (raw : RawPayload) : Option (List FlightState) :=
  normLoop (raw.states.getD [])

/-!  AirspaceSummarizer: the aggregation pieces of `_airspace_summary_bbox`. -/

/-- Descending comparison on `speed_kmh`, as induced by
`sorted(..., key=lambda x: x["speed_kmh"], reverse=True)`;
Python `reverse=True` keeps the sort stable while reversing the order,
which is exactly a stable sort with this flipped comparison. It is only
applied to records that passed the `is not None` filter, where `getD 0`
is the stored value. -/
def speedDesc (a b : FlightState) : Bool :=
  decide (b.speed_kmh.getD 0 ≤ a.speed_kmh.getD 0)

/-- Descending comparison on `alt_ft`, same convention as `speedDesc`. -/
def altDesc (a b : FlightState) : Bool :=
  decide (b.alt_ft.getD 0 ≤ a.alt_ft.getD 0)

/-- `by_speed` from `_airspace_summary_bbox`: filter out records with no
speed, sort descending by speed, truncate to `top_n`. -/
def by_speed (states : List FlightState) (top_n : ℕ) : List FlightState :=
  ((states.filter (fun s => s.speed_kmh.isSome)).mergeSort speedDesc).take top_n

/-- `by_alt` from `_airspace_summary_bbox`: filter out records with no
altitude, sort descending by altitude, truncate to `top_n`. -/
def by_alt (states : List FlightState) (top_n : ℕ) : List FlightState :=
  ((states.filter (fun s => s.alt_ft.isSome)).mergeSort altDesc).take top_n

/-- The prefix key computed per record in the tally loop:
`cs = s.get("callsign") or "UNKNOWN"` then
`p = cs[:3] if cs != "UNKNOWN" else "UNK"`. -/
def keyOf (s : FlightState) : String :=
  let cs := if s.callsign = "" then "UNKNOWN" else s.callsign
  if cs ≠ "UNKNOWN" then cs.take 3 else "UNK"

/-- `prefixes[p] = prefixes.get(p, 0) + 1` on an insertion-ordered dict,
modelled as an association list: increment in place, or append a new key. -/
def bump : List (String × ℕ) → String → List (String × ℕ)
  | [], k => [(k, 1)]
  | (p, c) :: rest, k =>
    if p = k then (p, c + 1) :: rest else (p, c) :: bump rest k

/-- The callsign-prefix tally loop of `_airspace_summary_bbox`. -/
def prefixTally (states : List FlightState) : List (String × ℕ) :=
  states.foldl (fun acc s => bump acc (keyOf s)) []

/-- Descending comparison on the tally counts
(`key=lambda x: x[1], reverse=True`). -/
def countDesc (a b : String × ℕ) : Bool :=
  decide (b.2 ≤ a.2)

/-- `top_prefixes` from `_airspace_summary_bbox`: tally items sorted
descending by count, truncated to `top_n`. -/
def top_prefixes (states : List FlightState) (top_n : ℕ) : List (String × ℕ) :=
  ((prefixTally states).mergeSort countDesc).take top_n

/-!  Gateway, request parameters and the error envelope. -/

/-- `OPENSKY_BASE` from `main.py`. -/
def OPENSKY_BASE : String := "https://opensky-network.org/api"

/-- The query parameters sent to `/states/all`: the four bbox bounds and,
for the raw tool only, the optional `extended=1` flag. -/
structure Params where
  lamin : ℚ
  lomin : ℚ
  lamax : ℚ
  lomax : ℚ
  extended : Bool
deriving DecidableEq, Repr

/-- The `error` object built by `_err(where, kind, message, **extra)`.
The optional fields model the `**extra` keys this program actually uses:
`url` and `params` at the gateway, `status` for HTTP errors, and
`available` for the unknown-region error. -/
structure ErrInfo where
  where_ : String
  kind : String
  message : String
  url : Option String
  params : Option Params
  status : Option (Option ℕ)
  available : Option (List String)
deriving DecidableEq, Repr

/-- The possible outcomes of the single `httpx` GET inside
`_opensky_get`, at the granularity the `except` clauses distinguish:
`success` is a 2xx response with a JSON body (`raise_for_status`
turns every non-2xx into `HTTPStatusError`). -/
inductive HttpOutcome where
  | success (data : RawPayload)
  | connectError (msg : String)
  | readTimeout (msg : String)
  | statusError (msg : String) (status : Option ℕ)
  | otherError (msg : String)
deriving DecidableEq, Repr

/-- Result of `_opensky_get`: the ok-dict or the error envelope. -/
inductive GetResult where
  | ok (data : RawPayload) (url : String) (params : Params)
  | err (e : ErrInfo)
deriving DecidableEq, Repr

/-- `_opensky_get` from `main.py`, with the transport outcome passed in
explicitly; the second component counts upstream GET requests issued
(always exactly one — the function fetches unconditionally and performs
no retries). Every exception is converted into an error envelope; none
escapes. -/
def _opensky_get (path : String) (params : Params) (o : HttpOutcome) :
    GetResult × ℕ :=
  (match o with
   | .success d => .ok d (OPENSKY_BASE ++ path) params
   | .connectError m =>
     .err ⟨"opensky", "connect_error", m, some (OPENSKY_BASE ++ path), some params, none, none⟩
   | .readTimeout m =>
     .err ⟨"opensky", "timeout", m, some (OPENSKY_BASE ++ path), some params, none, none⟩
   | .statusError m st =>
     .err ⟨"opensky", "http_status", m, some (OPENSKY_BASE ++ path), some params, some st, none⟩
   | .otherError m =>
     .err ⟨"opensky", "unknown", m, some (OPENSKY_BASE ++ path), some params, none, none⟩,
   1)

/-- Result of `_normalized_states_bbox`: success dict, error envelope
passthrough, or an uncaught exception escaping the tool (`crash` — the
`IndexError` that `_normalize_states` can raise is not handled). -/
inductive NormResult where
  | ok (bbox : Params) (count : ℕ) (states : List FlightState)
  | err (e : ErrInfo)
  | crash
deriving DecidableEq, Repr

/-- `_normalized_states_bbox` from `main.py`: fetch `/states/all` for the
bbox (no input validation), pass an error envelope through, otherwise
normalize and wrap. Second component counts upstream GETs. -/
def _normalized_states_bbox (lamin lomin lamax lomax : ℚ) (o : HttpOutcome) :
    NormResult × ℕ :=
  let params : Params := ⟨lamin, lomin, lamax, lomax, false⟩
  let raw := _opensky_get "/states/all" params o
  (match raw.1 with
   | .err e => .err e
   | .ok d _ _ =>
     match _normalize_states d with
     | none => .crash
     | some items => .ok params items.length items,
   raw.2)

/-- The summary dict built by `_airspace_summary_bbox`. -/
structure Summary where
  bbox : Params
  count : ℕ
  top_by_speed : List FlightState
  top_by_altitude : List FlightState
  top_callsign_prefixes : List (String × ℕ)
deriving DecidableEq, Repr

/-- Result of `_airspace_summary_bbox` and of the region tool. -/
inductive SummaryResult where
  | ok (s : Summary)
  | err (e : ErrInfo)
  | crash
deriving DecidableEq, Repr

/-- `_airspace_summary_bbox` from `main.py`: normalized fetch, then the
three aggregations. Errors (and crashes) propagate unchanged. -/
def _airspace_summary_bbox (lamin lomin lamax lomax : ℚ) (top_n : ℕ)
    (o : HttpOutcome) : SummaryResult × ℕ :=
  let data := _normalized_states_bbox lamin lomin lamax lomax o
  (match data.1 with
   | .err e => .err e
   | .crash => .crash
   | .ok bbox cnt states =>
     .ok ⟨bbox, cnt, by_speed states top_n, by_alt states top_n,
          top_prefixes states top_n⟩,
   data.2)

/-- Result of the raw-states tool `opensky_live_states_bbox`. -/
inductive LiveResult where
  | ok (bbox : Params) (raw : RawPayload)
  | err (e : ErrInfo)
deriving DecidableEq, Repr

/-- `opensky_live_states_bbox` from `main.py`: builds the params dict
(adding `extended=1` when requested), fetches unconditionally — there is
no validation of the bbox — and wraps the result. -/
def opensky_live_states_bbox (lamin lomin lamax lomax : ℚ) (extended : Bool)
    (o : HttpOutcome) : LiveResult × ℕ :=
  let params : Params := ⟨lamin, lomin, lamax, lomax, extended⟩
  let raw := _opensky_get "/states/all" params o
  (match raw.1 with
   | .err e => .err e
   | .ok d _ _ => .ok params d,
   raw.2)

/-- `opensky_normalized_states_bbox` from `main.py`: a direct delegation
to `_normalized_states_bbox`. -/
def opensky_normalized_states_bbox (lamin lomin lamax lomax : ℚ)
    (o : HttpOutcome) : NormResult × ℕ :=
  _normalized_states_bbox lamin lomin lamax lomax o

/-- The `REGIONS` preset table from `main.py`, in source order:
`(lamin, lomin, lamax, lomax)` per name. -/
def REGIONS : List (String × (ℚ × ℚ × ℚ × ℚ)) :=
  [("moscow", (55.20, 36.90, 56.10, 38.30)),
   ("spb", (59.50, 29.70, 60.20, 31.20)),
   ("komi", (58.90, 44.90, 68.70, 66.70)),
   ("komi_wide", (58.50, 44.00, 69.20, 67.20))]

/-- `opensky_airspace_summary_region` from `main.py`: an unknown region
name yields the `unknown_region` error envelope listing the catalog names,
with zero upstream calls; a known name delegates to the bbox summary. -/
def opensky_airspace_summary_region (region : String) (top_n : ℕ)
    (o : HttpOutcome) : SummaryResult × ℕ :=
  match REGIONS.lookup region with
  | none =>
    (.err ⟨"server", "unknown_region",
       "Регион " ++ region ++ " не найден в каталоге.",
       none, none, none, some (REGIONS.map Prod.fst)⟩, 0)
  | some (lamin, lomin, lamax, lomax) =>
    _airspace_summary_bbox lamin lomin lamax lomax top_n o

/-!  TokenManager: `_get_bearer_token` and its module-level cache. -/

/-- The module-level `_token_cache` dict. -/
structure TokenCache where
  token : Option String
  exp : ℚ
deriving DecidableEq, Repr

/-- Outcome of the token-endpoint POST inside the `try` block:
`success` is a 2xx response whose JSON body parsed and whose
`expires_in` field (when present) converted via `int(...)`;
every exception — connection failure, non-2xx from
`raise_for_status`, malformed JSON, bad `expires_in` — is `failure`,
landing in the `except Exception` clause. -/
inductive TokenOutcome where
  | success (access_token : Option String) (expires_in : Option ℤ)
  | failure
deriving DecidableEq, Repr

/-- What one call to `_get_bearer_token` produces: the returned value,
the cache afterwards, and whether a network request was issued. -/
structure TokenCallResult where
  token : Option String
  cache : TokenCache
  networkCall : Bool
deriving DecidableEq, Repr

/-- Python truthiness of an optional string (`if not CLIENT_ID`,
`if token`): `None` and `""` are falsy. -/
def strTruthy (o : Option String) : Bool :=
  decide (o.getD "" ≠ "")

/-- `_get_bearer_token` from `main.py`. Credentials, the clock and the
cache are passed explicitly; `o` is the outcome the token endpoint would
produce if called. The function never raises: every failure path returns
`none`. -/
def _get_bearer_token (clientId clientSecret : Option String) (now : ℚ)
    (cache : TokenCache) (o : TokenOutcome) : TokenCallResult :=
  if !(strTruthy clientId) || !(strTruthy clientSecret) then
    ⟨none, cache, false⟩
  else if strTruthy cache.token && decide (now < cache.exp) then
    ⟨cache.token, cache, false⟩
  else
    match o with
    | .failure => ⟨none, cache, true⟩
    | .success at_ ein =>
      ⟨at_, ⟨at_, now + ((max 60 (ein.getD 1800 - 30) : ℤ) : ℚ)⟩, true⟩

/-!  Helper lemmas about the normalizer. -/

/-- A state array with at least 11 entries never raises: every index the
loop body reads is in range. -/
theorem normOne_isSome (s : List JVal) (h : 11 ≤ s.length) :
    (normOne s).isSome := by
  simp only [normOne,
    List.get?_eq_get (show 0 < s.length by omega),
    List.get?_eq_get (show 1 < s.length by omega),
    List.get?_eq_get (show 2 < s.length by omega),
    List.get?_eq_get (show 4 < s.length by omega),
    List.get?_eq_get (show 5 < s.length by omega),
    List.get?_eq_get (show 6 < s.length by omega),
    List.get?_eq_get (show 7 < s.length by omega),
    List.get?_eq_get (show 8 < s.length by omega),
    List.get?_eq_get (show 9 < s.length by omega),
    List.get?_eq_get (show 10 < s.length by omega),
    Option.bind_eq_bind, Option.pure_def, Option.some_bind]
  split <;> simp

/-- When no record raises, the loop is exactly an in-order `filterMap`:
each kept record is appended in source order, dropped ones are skipped. -/
theorem normLoop_eq_filterMap (l : List (List JVal))
    (h : ∀ s ∈ l, (normOne s).isSome) :
    normLoop l = some (l.filterMap (fun s => (normOne s).join)) := by
  induction l with
  | nil => rfl
  | cons s rest ih =>
    have hs := h s (List.mem_cons_self s rest)
    have hrest := ih fun x hx => h x (List.mem_cons_of_mem _ hx)
    obtain ⟨v, hv⟩ := Option.isSome_iff_exists.mp hs
    cases v with
    | none => simp [normLoop, hv, hrest, List.filterMap_cons]
    | some fs => simp [normLoop, hv, hrest, List.filterMap_cons]

/-- For a well-formed state array, whether the loop keeps the record is
decided exactly by the two position reads the `continue` inspects. -/
theorem normOne_join_isSome (s : List JVal) (h : 11 ≤ s.length) :
    ((normOne s).join).isSome =
      (decide (s.get? 6 ≠ some JVal.null) && decide (s.get? 5 ≠ some JVal.null)) := by
  simp only [normOne,
    List.get?_eq_get (show 0 < s.length by omega),
    List.get?_eq_get (show 1 < s.length by omega),
    List.get?_eq_get (show 2 < s.length by omega),
    List.get?_eq_get (show 4 < s.length by omega),
    List.get?_eq_get (show 5 < s.length by omega),
    List.get?_eq_get (show 6 < s.length by omega),
    List.get?_eq_get (show 7 < s.length by omega),
    List.get?_eq_get (show 8 < s.length by omega),
    List.get?_eq_get (show 9 < s.length by omega),
    List.get?_eq_get (show 10 < s.length by omega),
    Option.bind_eq_bind, Option.pure_def, Option.some_bind]
  split
  · rename_i hcond
    simp only [List.get_eq_getElem] at hcond
    rcases hcond with h6 | h5
    · simp [Option.join, h6]
    · simp [Option.join, h5]
  · rename_i hcond
    push_neg at hcond
    simp only [List.get_eq_getElem] at hcond
    simp [Option.join, hcond.1, hcond.2]

/-- Generic: a `filterMap` has the same length as the `filter` by the
predicate that says the mapping function succeeds. -/
theorem length_filterMap_eq_length_filter {α β : Type _} (g : α → Option β)
    (p : α → Bool) (l : List α) (h : ∀ s ∈ l, (g s).isSome = p s) :
    (l.filterMap g).length = (l.filter p).length := by
  induction l with
  | nil => rfl
  | cons a l ih =>
    have ha := h a (List.mem_cons_self a l)
    have hl := ih fun x hx => h x (List.mem_cons_of_mem _ hx)
    cases hg : g a with
    | none =>
      have : p a = false := by rw [← ha, hg]; rfl
      simp [List.filterMap_cons, List.filter_cons, hg, this, hl]
    | some b =>
      have : p a = true := by rw [← ha, hg]; rfl
      simp [List.filterMap_cons, List.filter_cons, hg, this, hl]

/-- Claim C3: on a well-formed payload (every state array has the 11
positions the loop reads), normalization returns, in input order, exactly
the per-record results — an in-order `filterMap` — and its length equals
the number of records whose latitude (index 6) and longitude (index 5)
are both non-null. -/
theorem C3_normalize_drop_rule (raw : RawPayload)
    (h : ∀ s ∈ raw.states.getD [], 11 ≤ s.length) :
    _normalize_states raw =
      some ((raw.states.getD []).filterMap (fun s => (normOne s).join)) ∧
    ∀ out, _normalize_states raw = some out →
      out.length = ((raw.states.getD []).filter
        (fun s => decide (s.get? 6 ≠ some JVal.null) &&
                  decide (s.get? 5 ≠ some JVal.null))).length := by
  have hsome : ∀ s ∈ raw.states.getD [], (normOne s).isSome :=
    fun s hs => normOne_isSome s (h s hs)
  have h1 : _normalize_states raw =
      some ((raw.states.getD []).filterMap (fun s => (normOne s).join)) :=
    normLoop_eq_filterMap _ hsome
  refine ⟨h1, fun out hout => ?_⟩
  rw [h1, Option.some_inj] at hout
  subst hout
  exact length_filterMap_eq_length_filter _ _ _
    (fun s hs => normOne_join_isSome s (h s hs))

/-- Witness for C3 at a concrete three-record payload: one full record,
one with null latitude, one with null longitude. -/
theorem C3_normalize_drop_rule_witness :
    _normalize_states ⟨some
      [[JVal.str "a1", JVal.str "AFL123", JVal.str "RU", JVal.null, JVal.num 1,
        JVal.num 30, JVal.num 55, JVal.null, JVal.bool false, JVal.null, JVal.num 10],
       [JVal.str "a2", JVal.str "SBI456", JVal.str "RU", JVal.null, JVal.num 1,
        JVal.num 31, JVal.null, JVal.null, JVal.bool false, JVal.null, JVal.num 10],
       [JVal.str "a3", JVal.str "AFL789", JVal.str "RU", JVal.null, JVal.num 1,
        JVal.null, JVal.num 56, JVal.null, JVal.bool false, JVal.null, JVal.num 10]]⟩ =
      some (([[JVal.str "a1", JVal.str "AFL123", JVal.str "RU", JVal.null, JVal.num 1,
        JVal.num 30, JVal.num 55, JVal.null, JVal.bool false, JVal.null, JVal.num 10],
       [JVal.str "a2", JVal.str "SBI456", JVal.str "RU", JVal.null, JVal.num 1,
        JVal.num 31, JVal.null, JVal.null, JVal.bool false, JVal.null, JVal.num 10],
       [JVal.str "a3", JVal.str "AFL789", JVal.str "RU", JVal.null, JVal.num 1,
        JVal.null, JVal.num 56, JVal.null, JVal.bool false, JVal.null, JVal.num 10]] :
        List (List JVal)).filterMap (fun s => (normOne s).join)) :=
  (C3_normalize_drop_rule _ (by decide)).1

/-- Claim C10: the loop body reads positions 0–10 before the drop rule,
so normalization succeeds on every payload whose state arrays all have at
least 11 entries, and raises (modelled as `none`) on a payload containing
a shorter state array. -/
theorem C10_normalize_totality :
    (∀ raw : RawPayload, (∀ s ∈ raw.states.getD [], 11 ≤ s.length) →
      (_normalize_states raw).isSome) ∧
    _normalize_states ⟨some [[JVal.str "abc"]]⟩ = none := by
  constructor
  · intro raw h
    rw [_normalize_states,
      normLoop_eq_filterMap _ (fun s hs => normOne_isSome s (h s hs))]
    rfl
  · rfl

/-- Witness for C10 on a concrete well-formed payload. -/
theorem C10_normalize_totality_witness :
    (_normalize_states ⟨some [[JVal.str "a1", JVal.str "AFL123", JVal.str "RU",
      JVal.null, JVal.num 1, JVal.num 30, JVal.num 55, JVal.null, JVal.bool false,
      JVal.null, JVal.num 10]]⟩).isSome :=
  C10_normalize_totality.1 _ (by decide)

/-- Claim C9: the unit conversions are exact multiplications (by 3.6 and
3.28084), absent inputs give absent outputs, and on the example
payload normalization yields exactly one record with trimmed callsign
"BAW123", altitude 32808.4 ft and speed 900 km/h. -/
theorem C9_unit_conversions :
    (∀ v : ℚ, _to_kmh (some v) = some (v * 3.6)) ∧
    _to_kmh none = none ∧
    (∀ a : ℚ, _to_ft (some a) = some (a * 3.28084)) ∧
    _to_ft none = none ∧
    _normalize_states ⟨some [[.str "abc123", .str "BAW123  ", .str "UK", .num 0,
        .num 0, .num (-0.1), .num 51.5, .num 10000, .bool false, .num 250,
        .num 90]]⟩ =
      some [{ icao24 := .str "abc123", callsign := "BAW123",
              origin_country := .str "UK", lat := .num 51.5, lon := .num (-0.1),
              alt_ft := some 32808.4, speed_kmh := some 900,
              track_deg := .num 90, on_ground := .bool false,
              last_contact := .num 0 }] := by
  refine ⟨fun v => rfl, rfl, fun a => rfl, rfl, ?_⟩
  have hcs : pyStrip ((JVal.str "BAW123  ").strOrEmpty) = "BAW123" := rfl
  norm_num [_normalize_states, normLoop, normOne, _to_ft, _to_kmh, JVal.toOptNum,
    hcs]
  simp

/-- Claim C1 (amended): the bbox tools perform no input validation — for
every bbox, inverted or out of range included, each issues exactly one
upstream fetch, and a successful fetch yields a success envelope, never a
rejection. -/
theorem C1_no_bbox_validation (lamin lomin lamax lomax : ℚ) (ext : Bool)
    (n : ℕ) (o : HttpOutcome) :
    (opensky_live_states_bbox lamin lomin lamax lomax ext o).2 = 1 ∧
    (opensky_normalized_states_bbox lamin lomin lamax lomax o).2 = 1 ∧
    (_airspace_summary_bbox lamin lomin lamax lomax n o).2 = 1 ∧
    (∀ d, o = .success d →
      ∀ e, (opensky_live_states_bbox lamin lomin lamax lomax ext o).1 ≠ .err e) := by
  refine ⟨rfl, rfl, rfl, fun d hd e he => ?_⟩
  subst hd
  simp [opensky_live_states_bbox, _opensky_get] at he

/-- Witness for C1 at a concrete inverted bbox (lamin 10 > lamax 0). -/
theorem C1_no_bbox_validation_witness :
    (opensky_live_states_bbox 10 0 0 0 false (.success ⟨none⟩)).2 = 1 ∧
    (opensky_live_states_bbox 10 0 0 0 false (.success ⟨none⟩)).1 ≠
      .err ⟨"opensky", "unknown", "m", none, none, none, none⟩ :=
  ⟨(C1_no_bbox_validation 10 0 0 0 false 5 (.success ⟨none⟩)).1,
   (C1_no_bbox_validation 10 0 0 0 false 5 (.success ⟨none⟩)).2.2.2 ⟨none⟩ rfl _⟩

/-- Counterexample to C1 as stated: for the inverted bbox
lamin = 10 > lamax = 0 the raw tool does not reject — with a successful
upstream response it returns a success envelope, and it issued one fetch,
not zero. -/
theorem C1_counterexample :
    (¬ ∃ e, (opensky_live_states_bbox 10 0 0 0 false (.success ⟨none⟩)).1 =
      .err e) ∧
    (opensky_live_states_bbox 10 0 0 0 false (.success ⟨none⟩)).2 = 1 := by
  constructor
  · rintro ⟨e, he⟩
    simp [opensky_live_states_bbox, _opensky_get] at he
  · rfl

/-- Claim C2: `_opensky_get` maps each transport failure to its distinct
kind — `connect_error`, `timeout`, `http_status` (carrying the status
code), `unknown` — and every error envelope carries where "opensky", the
request url and the params; no exception escapes (the embedding is total
by construction: every outcome yields a `GetResult`). -/
theorem C2_gateway_error_taxonomy (path : String) (params : Params)
    (o : HttpOutcome) :
    (∀ m, o = .connectError m → (_opensky_get path params o).1 =
      .err ⟨"opensky", "connect_error", m, some (OPENSKY_BASE ++ path),
        some params, none, none⟩) ∧
    (∀ m, o = .readTimeout m → (_opensky_get path params o).1 =
      .err ⟨"opensky", "timeout", m, some (OPENSKY_BASE ++ path),
        some params, none, none⟩) ∧
    (∀ m st, o = .statusError m st → (_opensky_get path params o).1 =
      .err ⟨"opensky", "http_status", m, some (OPENSKY_BASE ++ path),
        some params, some st, none⟩) ∧
    (∀ m, o = .otherError m → (_opensky_get path params o).1 =
      .err ⟨"opensky", "unknown", m, some (OPENSKY_BASE ++ path),
        some params, none, none⟩) ∧
    (∀ e, (_opensky_get path params o).1 = .err e →
      e.where_ = "opensky" ∧ e.url = some (OPENSKY_BASE ++ path) ∧
      e.params = some params) := by
  refine ⟨fun m h => by subst h; rfl, fun m h => by subst h; rfl,
    fun m st h => by subst h; rfl, fun m h => by subst h; rfl,
    fun e h => ?_⟩
  cases o <;> simp [_opensky_get] at h <;> subst h <;> exact ⟨rfl, rfl, rfl⟩

/-- Witness for C2 at a concrete connection failure. -/
theorem C2_gateway_error_taxonomy_witness :
    (_opensky_get "/states/all" ⟨0, 0, 1, 1, false⟩ (.connectError "boom")).1 =
      .err ⟨"opensky", "connect_error", "boom",
        some "https://opensky-network.org/api/states/all",
        some ⟨0, 0, 1, 1, false⟩, none, none⟩ :=
  (C2_gateway_error_taxonomy "/states/all" ⟨0, 0, 1, 1, false⟩
    (.connectError "boom")).1 "boom" rfl

/-- Claim C4: an unregistered region name yields the `unknown_region`
error envelope listing every registered name, with zero upstream calls,
for any `top_n` and any would-be transport outcome (never raises). -/
theorem C4_unknown_region (region : String) (top_n : ℕ) (o : HttpOutcome)
    (h : region ∉ REGIONS.map Prod.fst) :
    opensky_airspace_summary_region region top_n o =
      (.err ⟨"server", "unknown_region",
         "Регион " ++ region ++ " не найден в каталоге.",
         none, none, none, some ["moscow", "spb", "komi", "komi_wide"]⟩, 0) := by
  have h1 : region ≠ "moscow" := by rintro rfl; simp [REGIONS] at h
  have h2 : region ≠ "spb" := by rintro rfl; simp [REGIONS] at h
  have h3 : region ≠ "komi" := by rintro rfl; simp [REGIONS] at h
  have h4 : region ≠ "komi_wide" := by rintro rfl; simp [REGIONS] at h
  have b1 : (region == "moscow") = false := beq_eq_false_iff_ne.mpr h1
  have b2 : (region == "spb") = false := beq_eq_false_iff_ne.mpr h2
  have b3 : (region == "komi") = false := beq_eq_false_iff_ne.mpr h3
  have b4 : (region == "komi_wide") = false := beq_eq_false_iff_ne.mpr h4
  simp [opensky_airspace_summary_region, REGIONS, List.lookup, b1, b2, b3, b4]

/-- Witness for C4 at the concrete unregistered name "mars". -/
theorem C4_unknown_region_witness :
    opensky_airspace_summary_region "mars" 5 (.connectError "x") =
      (.err ⟨"server", "unknown_region",
         "Регион " ++ "mars" ++ " не найден в каталоге.",
         none, none, none, some ["moscow", "spb", "komi", "komi_wide"]⟩, 0) :=
  C4_unknown_region "mars" 5 (.connectError "x") (by decide)

/-- Unconfigured credentials short-circuit to anonymous mode. -/
theorem gbt_unconfigured (cid cs : Option String) (now : ℚ) (cache : TokenCache)
    (o : TokenOutcome) (h : strTruthy cid = false ∨ strTruthy cs = false) :
    _get_bearer_token cid cs now cache o = ⟨none, cache, false⟩ := by
  rcases h with h | h <;> simp [_get_bearer_token, h]

/-- A truthy, unexpired cached token is served with no network call. -/
theorem gbt_hit (cid cs : Option String) (now : ℚ) (cache : TokenCache)
    (o : TokenOutcome) (h1 : strTruthy cid = true) (h2 : strTruthy cs = true)
    (h3 : strTruthy cache.token = true) (h4 : now < cache.exp) :
    _get_bearer_token cid cs now cache o = ⟨cache.token, cache, false⟩ := by
  simp [_get_bearer_token, h1, h2, h3, h4]

/-- A cache miss with a successful grant caches and returns the new
token, with expiry `now + max 60 (expires_in - 30)`. -/
theorem gbt_miss_success (cid cs : Option String) (now : ℚ)
    (cache : TokenCache) (at_ : Option String) (ein : Option ℤ)
    (h1 : strTruthy cid = true) (h2 : strTruthy cs = true)
    (h3 : strTruthy cache.token = false ∨ ¬ now < cache.exp) :
    _get_bearer_token cid cs now cache (.success at_ ein) =
      ⟨at_, ⟨at_, now + ((max 60 (ein.getD 1800 - 30) : ℤ) : ℚ)⟩, true⟩ := by
  rcases h3 with h | h <;> simp [_get_bearer_token, h1, h2, h]

/-- A cache miss with a failed grant returns `none` and leaves the cache
unchanged. -/
theorem gbt_miss_failure (cid cs : Option String) (now : ℚ)
    (cache : TokenCache) (h1 : strTruthy cid = true) (h2 : strTruthy cs = true)
    (h3 : strTruthy cache.token = false ∨ ¬ now < cache.exp) :
    _get_bearer_token cid cs now cache .failure = ⟨none, cache, true⟩ := by
  rcases h3 with h | h <;> simp [_get_bearer_token, h1, h2, h]

/-- A miss condition at `now` persists at every later instant. -/
theorem gbt_miss_mono (cache : TokenCache) (now now2 : ℚ)
    (hmiss : ¬(strTruthy cache.token = true ∧ now < cache.exp))
    (hle : now ≤ now2) :
    strTruthy cache.token = false ∨ ¬ now2 < cache.exp := by
  cases hb : strTruthy cache.token with
  | false => exact Or.inl rfl
  | true => exact Or.inr fun hl => hmiss ⟨hb, lt_of_le_of_lt hle hl⟩

/-- Claim C5: with credentials configured, a cached token that is still
valid (`now < exp`) is returned with no network call; otherwise one grant
is performed and, on success, the token is cached with expiry exactly
`now + max 60 (expires_in - 30)` (`expires_in` defaulting to 1800); in
particular a second call within the cached window makes no further
network call and returns the token cached by the first. -/
theorem C5_token_cache :
    (∀ cid cs now cache (t : String) o, strTruthy cid = true →
      strTruthy cs = true → cache.token = some t → t ≠ "" →
      now < cache.exp →
      _get_bearer_token cid cs now cache o = ⟨some t, cache, false⟩) ∧
    (∀ cid cs now cache at_ ein, strTruthy cid = true → strTruthy cs = true →
      ¬(strTruthy cache.token = true ∧ now < cache.exp) →
      _get_bearer_token cid cs now cache (.success at_ ein) =
        ⟨at_, ⟨at_, now + ((max 60 (ein.getD 1800 - 30) : ℤ) : ℚ)⟩, true⟩) ∧
    (∀ cid cs now now2 cache (t : String) ein o2, strTruthy cid = true →
      strTruthy cs = true → ¬(strTruthy cache.token = true ∧ now < cache.exp) →
      t ≠ "" → now ≤ now2 →
      now2 < now + ((max 60 (ein.getD 1800 - 30) : ℤ) : ℚ) →
      _get_bearer_token cid cs now2
          (_get_bearer_token cid cs now cache (.success (some t) ein)).cache o2 =
        ⟨some t,
         (_get_bearer_token cid cs now cache (.success (some t) ein)).cache,
         false⟩) := by
  refine ⟨fun cid cs now cache t o hcid hcs htok hne hlt => ?_,
    fun cid cs now cache at_ ein hcid hcs hmiss => ?_,
    fun cid cs now now2 cache t ein o2 hcid hcs hmiss hne hle hlt => ?_⟩
  · have htt : strTruthy cache.token = true := by simp [strTruthy, htok, hne]
    rw [gbt_hit cid cs now cache o hcid hcs htt hlt, htok]
  · exact gbt_miss_success cid cs now cache at_ ein hcid hcs
      (gbt_miss_mono cache now now hmiss le_rfl)
  · rw [gbt_miss_success cid cs now cache (some t) ein hcid hcs
      (gbt_miss_mono cache now now hmiss le_rfl)]
    have htt : strTruthy (some t) = true := by simp [strTruthy, hne]
    exact gbt_hit cid cs now2 _ o2 hcid hcs htt hlt

/-- Witness for C5: a valid cached token is served back unchanged with no
network call. -/
theorem C5_token_cache_witness :
    _get_bearer_token (some "id") (some "secret") 0 ⟨some "tok", 100⟩ .failure =
      ⟨some "tok", ⟨some "tok", 100⟩, false⟩ :=
  C5_token_cache.1 (some "id") (some "secret") 0 ⟨some "tok", 100⟩ "tok"
    .failure (by decide) (by decide) rfl (by decide) (by decide)

/-- Claim C6: `_get_bearer_token` never raises — unconfigured credentials
always yield `none` with no network call, and a failed refresh yields
`none` for that call, leaves the cache unchanged (at that point it holds
no still-valid entry), and every later call retries the grant. -/
theorem C6_token_failure_soft :
    (∀ cid cs now cache o, ¬(strTruthy cid = true ∧ strTruthy cs = true) →
      _get_bearer_token cid cs now cache o = ⟨none, cache, false⟩) ∧
    (∀ cid cs now cache, strTruthy cid = true → strTruthy cs = true →
      ¬(strTruthy cache.token = true ∧ now < cache.exp) →
      _get_bearer_token cid cs now cache .failure = ⟨none, cache, true⟩ ∧
      ∀ now2 o2, now ≤ now2 →
        (_get_bearer_token cid cs now2 cache o2).networkCall = true) := by
  constructor
  · intro cid cs now cache o h
    apply gbt_unconfigured
    cases hb : strTruthy cid with
    | false => exact Or.inl rfl
    | true =>
      cases hb2 : strTruthy cs with
      | false => exact Or.inr rfl
      | true => exact absurd ⟨hb, hb2⟩ h
  · intro cid cs now cache hcid hcs hmiss
    refine ⟨gbt_miss_failure cid cs now cache hcid hcs
      (gbt_miss_mono cache now now hmiss le_rfl), fun now2 o2 hle => ?_⟩
    have hm2 := gbt_miss_mono cache now now2 hmiss hle
    cases o2 with
    | failure => rw [gbt_miss_failure cid cs now2 cache hcid hcs hm2]
    | success at_ ein => rw [gbt_miss_success cid cs now2 cache at_ ein hcid hcs hm2]

/-- Witness for C6: with an expired cache entry and a failing grant, the
call returns `none`, keeps the cache, reports a network call, and a later
call (any outcome) again issues the grant. -/
theorem C6_token_failure_soft_witness :
    (_get_bearer_token (some "id") (some "secret") 200 ⟨some "tok", 100⟩
        .failure = ⟨none, ⟨some "tok", 100⟩, true⟩) ∧
    (_get_bearer_token (some "id") (some "secret") 300 ⟨some "tok", 100⟩
        .failure).networkCall = true := by
  have h := C6_token_failure_soft.2 (some "id") (some "secret") 200
    ⟨some "tok", 100⟩ (by decide) (by decide)
    (by rintro ⟨-, hlt⟩; exact absurd hlt (by decide))
  exact ⟨h.1, h.2 300 .failure (by decide)⟩

/-- `speedDesc` is transitive. -/
theorem speedDesc_trans (a b c : FlightState) :
    speedDesc a b → speedDesc b c → speedDesc a c := by
  simp only [speedDesc, decide_eq_true_eq]
  exact fun h1 h2 => le_trans h2 h1

/-- `speedDesc` is total. -/
theorem speedDesc_total (a b : FlightState) :
    speedDesc a b || speedDesc b a := by
  simp only [speedDesc, Bool.or_eq_true, decide_eq_true_eq]
  exact (le_total _ _).symm

/-- `altDesc` is transitive. -/
theorem altDesc_trans (a b c : FlightState) :
    altDesc a b → altDesc b c → altDesc a c := by
  simp only [altDesc, decide_eq_true_eq]
  exact fun h1 h2 => le_trans h2 h1

/-- `altDesc` is total. -/
theorem altDesc_total (a b : FlightState) :
    altDesc a b || altDesc b a := by
  simp only [altDesc, Bool.or_eq_true, decide_eq_true_eq]
  exact (le_total _ _).symm

/-- `countDesc` is transitive. -/
theorem countDesc_trans (a b c : String × ℕ) :
    countDesc a b → countDesc b c → countDesc a c := by
  simp only [countDesc, decide_eq_true_eq]
  omega

/-- `countDesc` is total. -/
theorem countDesc_total (a b : String × ℕ) :
    countDesc a b || countDesc b a := by
  simp only [countDesc, Bool.or_eq_true, decide_eq_true_eq]
  omega

/-- Claim C7 (amended): the speed and altitude leaderboards are sorted in
non-increasing order on their key (ties between equal keys are possible,
so not strictly decreasing), have length at most `top_n`, and contain
only states where that key is present — states lacking it are excluded
from that ranking rather than being ranked as zero. -/
theorem C7_top_rankings (states : List FlightState) (n : ℕ) :
    ((by_speed states n).length ≤ n ∧
     (by_speed states n).Pairwise
       (fun a b => b.speed_kmh.getD 0 ≤ a.speed_kmh.getD 0) ∧
     (by_speed states n).all (fun s => s.speed_kmh.isSome) = true) ∧
    ((by_alt states n).length ≤ n ∧
     (by_alt states n).Pairwise
       (fun a b => b.alt_ft.getD 0 ≤ a.alt_ft.getD 0) ∧
     (by_alt states n).all (fun s => s.alt_ft.isSome) = true) := by
  constructor
  · refine ⟨?_, ?_, ?_⟩
    · simp only [by_speed]
      exact List.length_take_le n _
    · have hs := @List.sorted_mergeSort _ speedDesc speedDesc_trans
        speedDesc_total (states.filter (fun s => s.speed_kmh.isSome))
      have ht := List.Pairwise.sublist (List.take_sublist n _) hs
      exact ht.imp (fun h => by
        simpa [speedDesc, decide_eq_true_eq] using h)
    · rw [List.all_eq_true]
      intro x hx
      have hx2 : x ∈ (states.filter (fun s => s.speed_kmh.isSome)).mergeSort
          speedDesc := List.take_subset n _ hx
      rw [List.mem_mergeSort] at hx2
      exact (List.mem_filter.mp hx2).2
  · refine ⟨?_, ?_, ?_⟩
    · simp only [by_alt]
      exact List.length_take_le n _
    · have hs := @List.sorted_mergeSort _ altDesc altDesc_trans
        altDesc_total (states.filter (fun s => s.alt_ft.isSome))
      have ht := List.Pairwise.sublist (List.take_sublist n _) hs
      exact ht.imp (fun h => by
        simpa [altDesc, decide_eq_true_eq] using h)
    · rw [List.all_eq_true]
      intro x hx
      have hx2 : x ∈ (states.filter (fun s => s.alt_ft.isSome)).mergeSort
          altDesc := List.take_subset n _ hx
      rw [List.mem_mergeSort] at hx2
      exact (List.mem_filter.mp hx2).2

/-- Two distinct records with the same speed, to exhibit a tie. -/
def cexA : FlightState :=
  ⟨.str "a", "AAA111", .str "X", .num 0, .num 0, some 1000, some 100,
   .num 0, .bool false, .num 0⟩

/-- Second record with the same speed as `cexA`. -/
def cexB : FlightState :=
  ⟨.str "b", "BBB222", .str "X", .num 0, .num 0, some 900, some 100,
   .num 0, .bool false, .num 0⟩

/-- Counterexample to C7 as stated: with two states of equal speed the
leaderboard is not *strictly* descending — the sort is non-strict and
keeps both ties. -/
theorem C7_counterexample :
    ¬ (by_speed [cexA, cexB] 5).Pairwise
        (fun a b => b.speed_kmh.getD 0 < a.speed_kmh.getD 0) := by
  intro h
  have heq : by_speed [cexA, cexB] 5 = [cexA, cexB] := by
    norm_num [by_speed, cexA, cexB, List.mergeSort, List.merge, speedDesc]
  rw [heq] at h
  have := (List.pairwise_cons.mp h).1 cexB (List.mem_cons_self _ _)
  simp [cexA, cexB] at this

/-- Incrementing one key adds exactly one to the total of the tally. -/
theorem bump_sum (acc : List (String × ℕ)) (k : String) :
    ((bump acc k).map Prod.snd).sum = (acc.map Prod.snd).sum + 1 := by
  induction acc with
  | nil => rfl
  | cons hd tl ih =>
    obtain ⟨p, c⟩ := hd
    by_cases h : p = k
    · simp [bump, h]
      omega
    · simp [bump, h, ih]
      omega

/-- The tally loop adds one per visited state, whatever the start. -/
theorem tally_sum_aux (states : List FlightState) (acc : List (String × ℕ)) :
    ((states.foldl (fun a s => bump a (keyOf s)) acc).map Prod.snd).sum =
      (acc.map Prod.snd).sum + states.length := by
  induction states generalizing acc with
  | nil => simp
  | cons s rest ih =>
    simp only [List.foldl_cons, ih, bump_sum, List.length_cons]
    omega

/-- Claim C8: the untruncated prefix tally totals exactly the number of
normalized states; the key is the three-character callsign head except
that the "UNKNOWN" sentinel maps to "UNK"; and the reported top prefixes
are sorted non-increasing by count and truncated to `top_n`. -/
theorem C8_prefix_tally (states : List FlightState) (n : ℕ) :
    ((prefixTally states).map Prod.snd).sum = states.length ∧
    (∀ s : FlightState, s.callsign = "UNKNOWN" → keyOf s = "UNK") ∧
    (∀ s : FlightState, s.callsign ≠ "UNKNOWN" → s.callsign ≠ "" →
      keyOf s = s.callsign.take 3) ∧
    (top_prefixes states n).Pairwise (fun a b => b.2 ≤ a.2) ∧
    (top_prefixes states n).length ≤ n := by
  refine ⟨?_, ?_, ?_, ?_, ?_⟩
  · simpa [prefixTally] using tally_sum_aux states []
  · intro s h
    simp [keyOf, h]
  · intro s h1 h2
    simp [keyOf, h1, h2]
  · have hs := @List.sorted_mergeSort _ countDesc countDesc_trans
      countDesc_total (prefixTally states)
    have ht := List.Pairwise.sublist (List.take_sublist n _) hs
    exact ht.imp (fun h => by
      simpa [countDesc, decide_eq_true_eq] using h)
  · exact List.length_take_le n _

/-- Witness for C8 on a one-record list whose callsign is the "UNKNOWN"
sentinel: the tally totals one state and the key is "UNK". -/
theorem C8_prefix_tally_witness :
    ((prefixTally [⟨.str "u", "UNKNOWN", .str "X", .num 0, .num 0, none,
        none, .num 0, .bool false, .num 0⟩]).map Prod.snd).sum = 1 ∧
    keyOf ⟨.str "u", "UNKNOWN", .str "X", .num 0, .num 0, none, none,
        .num 0, .bool false, .num 0⟩ = "UNK" :=
  ⟨(C8_prefix_tally [⟨.str "u", "UNKNOWN", .str "X", .num 0, .num 0, none,
      none, .num 0, .bool false, .num 0⟩] 5).1,
   (C8_prefix_tally [⟨.str "u", "UNKNOWN", .str "X", .num 0, .num 0, none,
      none, .num 0, .bool false, .num 0⟩] 5).2.1 _ rfl⟩

end OpenskyMCP
